import Mathlib

/-!
# Filmstrip layout engine — shallow embedding

Shallow embedding of the pure layout/derivation functions of
`src/react/features/uploadPPT/upload.js` (thumbnail sizing for the
horizontal / vertical / tile filmstrip layouts, remote-thumbnail
visibility, and per-thumbnail display-mode selection).

Modelling conventions:
* JavaScript numbers are modelled as exact rationals (`ℚ`); `Math.floor`
  is `Int.floor : ℚ → ℤ`; `Math.min` / `Math.max` are `min` / `max`.
* The global `interfaceConfig` object is modelled as an explicit record
  whose fields may be absent (`Option ℚ`).  An absent field propagates
  like JavaScript `undefined`/`NaN` through arithmetic: an arithmetic
  result whose computation touched an absent field is `none`.
  The JavaScript falsy-coalescing expression `v || d` is `jsOr`:
  it yields the default both when the field is absent and when it is `0`.
* The numeric constants imported from the sibling `./constants` module
  (aspect ratios, margins, scroll size, breakpoint) are not part of the
  sources; following the specification's interface section they are
  modelled as an explicit configuration record with the recognized field
  names, and all results are proved for every value of that record.
* The `local`/`remote` result fields of the sizing functions are named
  `localThumb`/`remoteThumb` because `local` is a reserved word in Lean.
-/

/-- JavaScript `v || d` on an optional numeric configuration field:
`undefined`/absent and `0` are falsy, every other number is truthy. -/
def jsOr (v : Option ℚ) (d : ℚ) : ℚ :=
  match v with
  | none => d
  | some x => if x = 0 then d else x

/-- The fields of the global `interfaceConfig` object read by the
filmstrip functions (`FILM_STRIP_MAX_HEIGHT`, `LOCAL_THUMBNAIL_RATIO`,
`REMOTE_THUMBNAIL_RATIO`); each may be unset. -/
structure InterfaceConfig where
  filmStripMaxHeight : Option ℚ
  localThumbnailRatio : Option ℚ
  remoteThumbnailRatio : Option ℚ
  deriving DecidableEq, Repr

/-- The numeric constants imported from the `./constants` module
(named as in the specification's configuration interface). -/
structure FilmstripConstants where
  tileAspectRatio : ℚ
  squareTileAspectRatio : ℚ
  aspectRatioBreakpoint : ℚ
  tileHorizontalMargin : ℚ
  tileVerticalMargin : ℚ
  scrollSize : ℚ
  verticalFilmstripMinHorizontalMargin : ℚ
  stageViewThumbnailHorizontalBorder : ℚ
  deriving DecidableEq, Repr

/-- A local/remote pair of thumbnail sizes (source fields `local` and
`remote`). -/
structure ThumbnailPair (α : Type) where
  localThumb : α
  remoteThumb : α
  deriving DecidableEq, Repr

/-- Result entry of `calculateThumbnailSizeForHorizontalView`: the shared
height is a plain number, the width is floored and is `none` when the
ratio configuration value is unset (JavaScript `NaN`). -/
structure HorizontalSize where
  height : ℚ
  width : Option ℤ
  deriving DecidableEq, Repr

/-- Result entry of `calculateThumbnailSizeForVerticalView`: the shared
width is a plain number, the height is floored and is `none` when the
ratio configuration value is unset (JavaScript `NaN`). -/
structure VerticalSize where
  height : Option ℤ
  width : ℚ
  deriving DecidableEq, Repr

/-- Result of `calculateThumbnailSizeForTileView`. -/
structure TileViewSize where
  height : ℤ
  width : ℤ
  deriving DecidableEq, Repr

/-- `calculateThumbnailSizeForHorizontalView(clientHeight = 0)`:
`availableHeight = min(clientHeight, (FILM_STRIP_MAX_HEIGHT || 120) + 15)`,
shared `height = availableHeight - 15`, and each width is
`Math.floor(ratio * height)`. -/
def calculateThumbnailSizeForHorizontalView (cfg : InterfaceConfig)
    (clientHeight : ℚ := 0) : ThumbnailPair HorizontalSize :=
  let topBottomMargin : ℚ := 15
  let availableHeight :=
    min clientHeight (jsOr cfg.filmStripMaxHeight 120 + topBottomMargin)
  let height := availableHeight - topBottomMargin
  { localThumb :=
      { height := height
        width := cfg.localThumbnailRatio.map fun r => ⌊r * height⌋ }
    remoteThumb :=
      { height := height
        width := cfg.remoteThumbnailRatio.map fun r => ⌊r * height⌋ } }

/-- `calculateThumbnailSizeForVerticalView(clientWidth = 0)`:
`horizontalMargin` is the sum of the four named margin/border constants,
`availableWidth = min(max(clientWidth - horizontalMargin, 0),
FILM_STRIP_MAX_HEIGHT || 120)`, each height is
`Math.floor(availableWidth / ratio)` and each width is `availableWidth`. -/
def calculateThumbnailSizeForVerticalView (c : FilmstripConstants)
    (cfg : InterfaceConfig) (clientWidth : ℚ := 0) :
    ThumbnailPair VerticalSize :=
  let horizontalMargin :=
    c.verticalFilmstripMinHorizontalMargin + c.scrollSize
      + c.tileHorizontalMargin + c.stageViewThumbnailHorizontalBorder
  let availableWidth :=
    min (max (clientWidth - horizontalMargin) 0)
      (jsOr cfg.filmStripMaxHeight 120)
  { localThumb :=
      { height := cfg.localThumbnailRatio.map fun r => ⌊availableWidth / r⌋
        width := availableWidth }
    remoteThumb :=
      { height := cfg.remoteThumbnailRatio.map fun r => ⌊availableWidth / r⌋
        width := availableWidth } }

/-- Input record of `calculateThumbnailSizeForTileView`. -/
structure LayoutInput where
  columns : ℚ
  minVisibleRows : ℚ
  rows : ℚ
  clientWidth : ℚ
  clientHeight : ℚ
  disableResponsiveTiles : Bool
  deriving DecidableEq, Repr

/-- Step 1 of the tile algorithm: `TILE_ASPECT_RATIO`, replaced by
`SQUARE_TILE_ASPECT_RATIO` when responsive tiles are enabled and
`clientWidth < ASPECT_RATIO_BREAKPOINT`. -/
def tileViewAspectRatio (c : FilmstripConstants) (i : LayoutInput) : ℚ :=
  if !i.disableResponsiveTiles ∧ i.clientWidth < c.aspectRatioBreakpoint then
    c.squareTileAspectRatio
  else
    c.tileAspectRatio

/-- `viewWidth = clientWidth - columns * TILE_HORIZONTAL_MARGIN`. -/
def tileViewWidth (c : FilmstripConstants) (i : LayoutInput) : ℚ :=
  i.clientWidth - i.columns * c.tileHorizontalMargin

/-- `viewHeight = clientHeight - minVisibleRows * TILE_VERTICAL_MARGIN`. -/
def tileViewHeight (c : FilmstripConstants) (i : LayoutInput) : ℚ :=
  i.clientHeight - i.minVisibleRows * c.tileVerticalMargin

/-- `initialWidth = viewWidth / columns`. -/
def tileInitialWidth (c : FilmstripConstants) (i : LayoutInput) : ℚ :=
  tileViewWidth c i / i.columns

/-- `initialHeight = viewHeight / minVisibleRows`. -/
def tileInitialHeight (c : FilmstripConstants) (i : LayoutInput) : ℚ :=
  tileViewHeight c i / i.minVisibleRows

/-- `aspectRatioHeight = initialWidth / aspectRatio`. -/
def tileAspectRatioHeight (c : FilmstripConstants) (i : LayoutInput) : ℚ :=
  tileInitialWidth c i / tileViewAspectRatio c i

/-- `noScrollHeight = clientHeight / rows - TILE_VERTICAL_MARGIN`. -/
def tileNoScrollHeight (c : FilmstripConstants) (i : LayoutInput) : ℚ :=
  i.clientHeight / i.rows - c.tileVerticalMargin

/-- `scrollInitialWidth = (viewWidth - SCROLL_SIZE) / columns`. -/
def tileScrollInitialWidth (c : FilmstripConstants) (i : LayoutInput) : ℚ :=
  (tileViewWidth c i - c.scrollSize) / i.columns

/-- Initially computed `height = Math.floor(Math.min(aspectRatioHeight,
initialHeight))`. -/
def tileFirstHeight (c : FilmstripConstants) (i : LayoutInput) : ℤ :=
  ⌊min (tileAspectRatioHeight c i) (tileInitialHeight c i)⌋

/-- Initially computed `width = Math.floor(aspectRatio * height)`. -/
def tileFirstWidth (c : FilmstripConstants) (i : LayoutInput) : ℤ :=
  ⌊tileViewAspectRatio c i * (tileFirstHeight c i : ℚ)⌋

/-- The scroll-correction guard
`height > noScrollHeight && width > scrollInitialWidth`. -/
def tileNeedsScroll (c : FilmstripConstants) (i : LayoutInput) : Prop :=
  tileNoScrollHeight c i < (tileFirstHeight c i : ℚ)
    ∧ tileScrollInitialWidth c i < (tileFirstWidth c i : ℚ)

instance tileNeedsScrollDecidable (c : FilmstripConstants) (i : LayoutInput) :
    Decidable (tileNeedsScroll c i) := by
  unfold tileNeedsScroll
  infer_instance

/-- Scroll-corrected height `Math.floor(Math.max(Math.min(
scrollAspectRatioHeight, initialHeight), noScrollHeight))` where
`scrollAspectRatioHeight = scrollInitialWidth / aspectRatio`. -/
def tileCorrectedHeight (c : FilmstripConstants) (i : LayoutInput) : ℤ :=
  ⌊max (min (tileScrollInitialWidth c i / tileViewAspectRatio c i)
        (tileInitialHeight c i))
      (tileNoScrollHeight c i)⌋

/-- `calculateThumbnailSizeForTileView`: the initially computed floored
width/height, with the scroll correction applied when both guard
conditions hold. -/
def calculateThumbnailSizeForTileView (c : FilmstripConstants)
    (i : LayoutInput) : TileViewSize :=
  if tileNeedsScroll c i then
    { height := tileCorrectedHeight c i
      width := ⌊tileViewAspectRatio c i * (tileCorrectedHeight c i : ℚ)⌋ }
  else
    { height := tileFirstHeight c i
      width := tileFirstWidth c i }

/-- `getVerticalFilmstripVisibleAreaWidth`:
`min((FILM_STRIP_MAX_HEIGHT || 120) + 18, window.innerWidth)`; the
window width is passed explicitly. -/
def getVerticalFilmstripVisibleAreaWidth (cfg : InterfaceConfig)
    (innerWidth : ℚ) : ℚ :=
  min (jsOr cfg.filmStripMaxHeight 120 + 18) innerWidth

/-- The state fields read by `shouldRemoteVideosBeVisible`:
`calleeInfoVisible`, the participant count including fake participants,
`disable1On1Mode` (a `boolean | null` configuration value), the toolbox
visibility, and whether a pinned participant exists and is local. -/
structure VisibilityContext where
  calleeInfoVisible : Bool
  participantCount : ℕ
  disable1On1Mode : Option Bool
  toolboxVisible : Bool
  pinnedParticipantIsLocal : Bool
  deriving DecidableEq, Repr

/-- `shouldRemoteVideosBeVisible`: `false` when the callee-info overlay is
visible, otherwise `Boolean(participantCount > 2 || (participantCount > 1
&& disable1On1Mode !== null && (toolboxVisible || pinned-and-local))
|| disable1On1Mode)`. -/
def shouldRemoteVideosBeVisible (ctx : VisibilityContext) : Bool :=
  if ctx.calleeInfoVisible then
    false
  else
    decide (ctx.participantCount > 2)
      || (decide (ctx.participantCount > 1)
          && ctx.disable1On1Mode.isSome
          && (ctx.toolboxVisible || ctx.pinnedParticipantIsLocal))
      || ctx.disable1On1Mode.getD false

/-- The five thumbnail display modes. -/
inductive DisplayMode where
  | DISPLAY_VIDEO
  | DISPLAY_AVATAR
  | DISPLAY_AVATAR_WITH_NAME
  | DISPLAY_BLACKNESS_WITH_NAME
  | DISPLAY_VIDEO_WITH_NAME
  deriving DecidableEq, Repr

/-- Input record of `computeDisplayMode`. -/
structure DisplayModeInput where
  isAudioOnly : Bool
  isCurrentlyOnLargeVideo : Bool
  isScreenSharing : Bool
  canPlayEventReceived : Bool
  isHovered : Bool
  isRemoteParticipant : Bool
  tileViewActive : Bool
  isVideoPlayable : Bool
  deriving DecidableEq, Repr

/-- `computeDisplayMode`: the four-rule precedence over
`adjustedIsVideoPlayable = isVideoPlayable && (!isRemoteParticipant ||
canPlayEventReceived)`. -/
def computeDisplayMode (i : DisplayModeInput) : DisplayMode :=
  let adjustedIsVideoPlayable :=
    i.isVideoPlayable && (!i.isRemoteParticipant || i.canPlayEventReceived)
  if !i.tileViewActive && i.isScreenSharing && i.isRemoteParticipant then
    if i.isHovered then .DISPLAY_AVATAR_WITH_NAME else .DISPLAY_AVATAR
  else if i.isCurrentlyOnLargeVideo && !i.tileViewActive then
    if adjustedIsVideoPlayable && !i.isAudioOnly then
      .DISPLAY_BLACKNESS_WITH_NAME
    else
      .DISPLAY_AVATAR_WITH_NAME
  else if adjustedIsVideoPlayable && !i.isAudioOnly then
    if i.isHovered then .DISPLAY_VIDEO_WITH_NAME else .DISPLAY_VIDEO
  else
    if i.isHovered then .DISPLAY_AVATAR_WITH_NAME else .DISPLAY_AVATAR

/-! ## Concrete example inputs used by the witnesses -/

/-- Example values for the `./constants` record. -/
def cstExample : FilmstripConstants :=
  { tileAspectRatio := 16/9
    squareTileAspectRatio := 1
    aspectRatioBreakpoint := 500
    tileHorizontalMargin := 4
    tileVerticalMargin := 4
    scrollSize := 7
    verticalFilmstripMinHorizontalMargin := 10
    stageViewThumbnailHorizontalBorder := 2 }

/-- A tile-view input on which the scroll correction fires. -/
def tileInputScroll : LayoutInput :=
  { columns := 3, minVisibleRows := 2, rows := 4, clientWidth := 900
    clientHeight := 600, disableResponsiveTiles := true }

/-- A tile-view input on which the scroll correction does not fire. -/
def tileInputNoScroll : LayoutInput :=
  { columns := 3, minVisibleRows := 2, rows := 2, clientWidth := 900
    clientHeight := 600, disableResponsiveTiles := true }

/-- An `interfaceConfig` with all three fields set. -/
def cfgExample : InterfaceConfig :=
  { filmStripMaxHeight := some 120
    localThumbnailRatio := some 2
    remoteThumbnailRatio := some 3 }

/-- An `interfaceConfig` with the max-height and local-ratio fields
unset. -/
def cfgUnset : InterfaceConfig :=
  { filmStripMaxHeight := none
    localThumbnailRatio := none
    remoteThumbnailRatio := some 1 }

/-! ## Claim theorems -/

/-- Distance from a rational to its floor is at most one. -/
theorem abs_intFloor_sub_le_one (x : ℚ) : |((⌊x⌋ : ℤ) : ℚ) - x| ≤ 1 := by
  rw [abs_le]
  constructor <;> linarith [Int.floor_le x, Int.lt_floor_add_one x]

/-- C1: the scroll correction of `calculateThumbnailSizeForTileView` is
applied exactly when `height > noScrollHeight` and
`width > scrollInitialWidth` hold for the initially computed
`height = ⌊min(aspectRatioHeight, initialHeight)⌋` and
`width = ⌊aspectRatio * height⌋`; otherwise the initial values are
returned unchanged, and when it is applied the returned height is
`⌊max(min(scrollInitialWidth / aspectRatio, initialHeight),
noScrollHeight)⌋` with `width = ⌊aspectRatio * height⌋`. -/
theorem tileView_scrollCorrection_iff (c : FilmstripConstants)
    (i : LayoutInput) :
    (¬ tileNeedsScroll c i →
      calculateThumbnailSizeForTileView c i =
        { height := ⌊min (tileAspectRatioHeight c i) (tileInitialHeight c i)⌋
          width := ⌊tileViewAspectRatio c i
            * ((⌊min (tileAspectRatioHeight c i) (tileInitialHeight c i)⌋ : ℤ) : ℚ)⌋ })
    ∧ (tileNeedsScroll c i →
      calculateThumbnailSizeForTileView c i =
        { height := ⌊max (min (tileScrollInitialWidth c i / tileViewAspectRatio c i)
              (tileInitialHeight c i)) (tileNoScrollHeight c i)⌋
          width := ⌊tileViewAspectRatio c i
            * ((⌊max (min (tileScrollInitialWidth c i / tileViewAspectRatio c i)
                  (tileInitialHeight c i)) (tileNoScrollHeight c i)⌋ : ℤ) : ℚ)⌋ }) := by
  constructor <;> intro h <;>
    simp [calculateThumbnailSizeForTileView, h, tileFirstHeight, tileFirstWidth,
      tileCorrectedHeight]

/-- Witness for C1: on `tileInputScroll` both guard conditions hold and
the corrected size `{height := 165, width := 293}` is returned. -/
theorem tileView_scrollCorrection_iff_witness :
    tileNeedsScroll cstExample tileInputScroll
      ∧ calculateThumbnailSizeForTileView cstExample tileInputScroll
        = { height := 165, width := 293 } := by
  have hscroll : tileNeedsScroll cstExample tileInputScroll := by
    norm_num [tileNeedsScroll, tileNoScrollHeight, tileFirstHeight,
      tileFirstWidth, tileAspectRatioHeight, tileInitialHeight,
      tileInitialWidth, tileViewWidth, tileViewHeight, tileViewAspectRatio,
      tileScrollInitialWidth, cstExample, tileInputScroll]
  refine ⟨hscroll, ?_⟩
  rw [(tileView_scrollCorrection_iff cstExample tileInputScroll).2 hscroll]
  norm_num [tileScrollInitialWidth, tileViewAspectRatio, tileInitialHeight,
    tileNoScrollHeight, tileViewWidth, tileViewHeight, cstExample,
    tileInputScroll]

/-- C4: the returned width and height of
`calculateThumbnailSizeForTileView` satisfy the round-trip relation
`|width - aspectRatio * height| ≤ 1` for the aspect ratio selected in
step 1, whenever columns, minVisibleRows, rows and the aspect ratio are
positive. -/
theorem tileView_roundTrip (c : FilmstripConstants) (i : LayoutInput)
    (hcols : 0 < i.columns) (hmin : 0 < i.minVisibleRows)
    (hrows : 0 < i.rows) (ha : 0 < tileViewAspectRatio c i) :
    |(((calculateThumbnailSizeForTileView c i).width : ℤ) : ℚ)
        - tileViewAspectRatio c i
          * (((calculateThumbnailSizeForTileView c i).height : ℤ) : ℚ)| ≤ 1 := by
  unfold calculateThumbnailSizeForTileView
  split
  · simpa using
      abs_intFloor_sub_le_one
        (tileViewAspectRatio c i * ((tileCorrectedHeight c i : ℤ) : ℚ))
  · simp only [tileFirstWidth]
    simpa using
      abs_intFloor_sub_le_one
        (tileViewAspectRatio c i * ((tileFirstHeight c i : ℤ) : ℚ))

/-- Witness for C4 at `tileInputNoScroll` (positive columns, rows and
aspect ratio, round trip within 1). -/
theorem tileView_roundTrip_witness :
    0 < tileInputNoScroll.columns ∧ 0 < tileInputNoScroll.minVisibleRows
      ∧ 0 < tileInputNoScroll.rows
      ∧ 0 < tileViewAspectRatio cstExample tileInputNoScroll
      ∧ |(((calculateThumbnailSizeForTileView cstExample tileInputNoScroll).width : ℤ) : ℚ)
          - tileViewAspectRatio cstExample tileInputNoScroll
            * (((calculateThumbnailSizeForTileView cstExample tileInputNoScroll).height : ℤ) : ℚ)| ≤ 1 := by
  have ha : 0 < tileViewAspectRatio cstExample tileInputNoScroll := by
    norm_num [tileViewAspectRatio, cstExample, tileInputNoScroll]
  refine ⟨by norm_num [tileInputNoScroll], by norm_num [tileInputNoScroll],
    by norm_num [tileInputNoScroll], ha, ?_⟩
  exact tileView_roundTrip cstExample tileInputNoScroll
    (by norm_num [tileInputNoScroll]) (by norm_num [tileInputNoScroll])
    (by norm_num [tileInputNoScroll]) ha

/-- Counterexample to C2 as stated: with `calleeInfoVisible = true` the
function returns `false` even for `participantCount = 3` and every other
field at its most visibility-friendly value, so the result is not
independent of `calleeInfoVisible`. -/
theorem shouldRemoteVideosBeVisible_three_counterexample :
    shouldRemoteVideosBeVisible
      { calleeInfoVisible := true, participantCount := 3
        disable1On1Mode := some true, toolboxVisible := true
        pinnedParticipantIsLocal := true } = false := by
  decide

/-- C2 (amended): for every context with `calleeInfoVisible = false` and
`participantCount > 2`, `shouldRemoteVideosBeVisible` returns `true`
regardless of the remaining fields. -/
theorem shouldRemoteVideosBeVisible_of_manyParticipants
    (ctx : VisibilityContext) (hc : ctx.calleeInfoVisible = false)
    (h : 2 < ctx.participantCount) :
    shouldRemoteVideosBeVisible ctx = true := by
  simp [shouldRemoteVideosBeVisible, hc, h]

/-- Witness for amended C2 at `participantCount = 3` with all other
flags off. -/
theorem shouldRemoteVideosBeVisible_of_manyParticipants_witness :
    (VisibilityContext.mk false 3 none false false).calleeInfoVisible = false
      ∧ 2 < (VisibilityContext.mk false 3 none false false).participantCount
      ∧ shouldRemoteVideosBeVisible (VisibilityContext.mk false 3 none false false) = true :=
  ⟨rfl, by decide,
    shouldRemoteVideosBeVisible_of_manyParticipants _ rfl (by decide)⟩

/-- C3: whenever `calleeInfoVisible` is `true`,
`shouldRemoteVideosBeVisible` returns `false`, regardless of every other
field. -/
theorem shouldRemoteVideosBeVisible_of_calleeInfoVisible
    (ctx : VisibilityContext) (h : ctx.calleeInfoVisible = true) :
    shouldRemoteVideosBeVisible ctx = false := by
  simp [shouldRemoteVideosBeVisible, h]

/-- Witness for C3 at `participantCount = 5` with all other flags at
their most visibility-friendly values. -/
theorem shouldRemoteVideosBeVisible_of_calleeInfoVisible_witness :
    (VisibilityContext.mk true 5 (some true) true true).calleeInfoVisible = true
      ∧ shouldRemoteVideosBeVisible (VisibilityContext.mk true 5 (some true) true true) = false :=
  ⟨rfl, shouldRemoteVideosBeVisible_of_calleeInfoVisible _ rfl⟩

/-- C5: for every `clientWidth`, `calculateThumbnailSizeForVerticalView`
returns `availableWidth = min(max(clientWidth - horizontalMargin, 0),
maxStripHeight)` as both widths (`horizontalMargin` the sum of the four
named margin/border constants, `maxStripHeight` the set, non-zero
filmstrip max-height configuration value), and heights
`⌊availableWidth / localRatio⌋` and `⌊availableWidth / remoteRatio⌋`. -/
theorem verticalView_formula (c : FilmstripConstants)
    (cfg : InterfaceConfig) (clientWidth m lr rr : ℚ)
    (hm : cfg.filmStripMaxHeight = some m) (hm0 : m ≠ 0)
    (hl : cfg.localThumbnailRatio = some lr) (hlp : 0 < lr)
    (hr2 : cfg.remoteThumbnailRatio = some rr) (hrp : 0 < rr) :
    (calculateThumbnailSizeForVerticalView c cfg clientWidth).localThumb.width
        = min (max (clientWidth - (c.verticalFilmstripMinHorizontalMargin
            + c.scrollSize + c.tileHorizontalMargin
            + c.stageViewThumbnailHorizontalBorder)) 0) m
      ∧ (calculateThumbnailSizeForVerticalView c cfg clientWidth).remoteThumb.width
        = min (max (clientWidth - (c.verticalFilmstripMinHorizontalMargin
            + c.scrollSize + c.tileHorizontalMargin
            + c.stageViewThumbnailHorizontalBorder)) 0) m
      ∧ (calculateThumbnailSizeForVerticalView c cfg clientWidth).localThumb.height
        = some ⌊min (max (clientWidth - (c.verticalFilmstripMinHorizontalMargin
            + c.scrollSize + c.tileHorizontalMargin
            + c.stageViewThumbnailHorizontalBorder)) 0) m / lr⌋
      ∧ (calculateThumbnailSizeForVerticalView c cfg clientWidth).remoteThumb.height
        = some ⌊min (max (clientWidth - (c.verticalFilmstripMinHorizontalMargin
            + c.scrollSize + c.tileHorizontalMargin
            + c.stageViewThumbnailHorizontalBorder)) 0) m / rr⌋ := by
  simp [calculateThumbnailSizeForVerticalView, jsOr, hm, hm0, hl, hr2]

/-- Witness for C5: with the example constants, the example config
(`maxStripHeight = 120`, ratios 2 and 3) and `clientWidth = 500`, the
shared width is `120`. -/
theorem verticalView_formula_witness :
    cfgExample.filmStripMaxHeight = some 120 ∧ (120 : ℚ) ≠ 0
      ∧ cfgExample.localThumbnailRatio = some 2 ∧ (0 : ℚ) < 2
      ∧ cfgExample.remoteThumbnailRatio = some 3 ∧ (0 : ℚ) < 3
      ∧ (calculateThumbnailSizeForVerticalView cstExample cfgExample 500).localThumb.width
        = 120 := by
  refine ⟨rfl, by norm_num, rfl, by norm_num, rfl, by norm_num, ?_⟩
  rw [(verticalView_formula cstExample cfgExample 500 120 2 3 rfl
    (by norm_num) rfl (by norm_num) rfl (by norm_num)).1]
  norm_num [cstExample]

/-- C6: for every configuration and every `clientHeight ≤ 0`,
`calculateThumbnailSizeForHorizontalView` returns the same height for the
local and remote thumbnails and that height is at most `-15` (no
clamping of negative results). -/
theorem horizontalView_nonpos_height (cfg : InterfaceConfig)
    (clientHeight : ℚ) (h : clientHeight ≤ 0) :
    (calculateThumbnailSizeForHorizontalView cfg clientHeight).localThumb.height ≤ -15
      ∧ (calculateThumbnailSizeForHorizontalView cfg clientHeight).remoteThumb.height ≤ -15
      ∧ (calculateThumbnailSizeForHorizontalView cfg clientHeight).localThumb.height
        = (calculateThumbnailSizeForHorizontalView cfg clientHeight).remoteThumb.height := by
  refine ⟨?_, ?_, rfl⟩ <;>
    · simp only [calculateThumbnailSizeForHorizontalView]
      have := min_le_left clientHeight (jsOr cfg.filmStripMaxHeight 120 + 15)
      linarith

/-- Witness for C6 at `clientHeight = 0` with the example config: the
shared height is exactly `-15`. -/
theorem horizontalView_nonpos_height_witness :
    (0 : ℚ) ≤ 0
      ∧ ((calculateThumbnailSizeForHorizontalView cfgExample 0).localThumb.height ≤ -15
        ∧ (calculateThumbnailSizeForHorizontalView cfgExample 0).remoteThumb.height ≤ -15
        ∧ (calculateThumbnailSizeForHorizontalView cfgExample 0).localThumb.height
          = (calculateThumbnailSizeForHorizontalView cfgExample 0).remoteThumb.height)
      ∧ (calculateThumbnailSizeForHorizontalView cfgExample 0).localThumb.height = -15 :=
  ⟨le_refl 0, horizontalView_nonpos_height cfgExample 0 (le_refl 0),
    by norm_num [calculateThumbnailSizeForHorizontalView, jsOr, cfgExample]⟩

/-- C7: `isScreenSharing = true`, `isRemoteParticipant = true`,
`tileViewActive = false`, `isHovered = false` make `computeDisplayMode`
return `DISPLAY_AVATAR` regardless of the remaining four fields. -/
theorem computeDisplayMode_remoteScreenShare (i : DisplayModeInput)
    (hs : i.isScreenSharing = true) (hr : i.isRemoteParticipant = true)
    (ht : i.tileViewActive = false) (hh : i.isHovered = false) :
    computeDisplayMode i = DisplayMode.DISPLAY_AVATAR := by
  simp [computeDisplayMode, hs, hr, ht, hh]

/-- Witness for C7 with the four remaining fields all `true`. -/
theorem computeDisplayMode_remoteScreenShare_witness :
    (DisplayModeInput.mk true true true true false true false true).isScreenSharing = true
      ∧ (DisplayModeInput.mk true true true true false true false true).isRemoteParticipant = true
      ∧ (DisplayModeInput.mk true true true true false true false true).tileViewActive = false
      ∧ (DisplayModeInput.mk true true true true false true false true).isHovered = false
      ∧ computeDisplayMode (DisplayModeInput.mk true true true true false true false true)
        = DisplayMode.DISPLAY_AVATAR :=
  ⟨rfl, rfl, rfl, rfl,
    computeDisplayMode_remoteScreenShare _ rfl rfl rfl rfl⟩

/-- C9: a remote participant whose `canplay` event has not been received
is never shown as video or blackness: `computeDisplayMode` returns
`DISPLAY_AVATAR` or `DISPLAY_AVATAR_WITH_NAME` for every such input. -/
theorem computeDisplayMode_remote_noCanPlay (i : DisplayModeInput)
    (hr : i.isRemoteParticipant = true) (hc : i.canPlayEventReceived = false) :
    computeDisplayMode i = DisplayMode.DISPLAY_AVATAR
      ∨ computeDisplayMode i = DisplayMode.DISPLAY_AVATAR_WITH_NAME := by
  obtain ⟨ao, lv, ss, cp, hov, rp, tv, vp⟩ := i
  simp only at hr hc
  subst hr hc
  cases ao <;> cases lv <;> cases ss <;> cases hov <;> cases tv <;> cases vp <;>
    decide

/-- Witness for C9: remote, no canplay, playable video, tile view —
`DISPLAY_AVATAR` comes out, not video. -/
theorem computeDisplayMode_remote_noCanPlay_witness :
    (DisplayModeInput.mk false false false false false true true true).isRemoteParticipant = true
      ∧ (DisplayModeInput.mk false false false false false true true true).canPlayEventReceived = false
      ∧ (computeDisplayMode (DisplayModeInput.mk false false false false false true true true)
          = DisplayMode.DISPLAY_AVATAR
        ∨ computeDisplayMode (DisplayModeInput.mk false false false false false true true true)
          = DisplayMode.DISPLAY_AVATAR_WITH_NAME) :=
  ⟨rfl, rfl, computeDisplayMode_remote_noCanPlay _ rfl rfl⟩

/-- Counterexample to C8 as stated: with `LOCAL_THUMBNAIL_RATIO` and
`REMOTE_THUMBNAIL_RATIO` unset, `calculateThumbnailSizeForHorizontalView`
does not behave as if they were `120` — the widths are undefined
(JavaScript `NaN`), not the widths computed with ratio `120`. -/
theorem horizontalView_unsetRatio_counterexample :
    calculateThumbnailSizeForHorizontalView
        (InterfaceConfig.mk (some 120) none none) 135
      ≠ calculateThumbnailSizeForHorizontalView
        (InterfaceConfig.mk (some 120) (some 120) (some 120)) 135 := by
  intro h
  have h2 := congrArg (fun p => (ThumbnailPair.localThumb p).width) h
  simp [calculateThumbnailSizeForHorizontalView] at h2

/-- C8 (amended): an omitted `clientHeight` behaves as `clientHeight = 0`;
the 120 default applies to the `FILM_STRIP_MAX_HEIGHT` configuration
value, which when unset behaves as if it were `120`; the thumbnail ratio
values get no default — with an unset ratio the corresponding computed
dimension is undefined (`none`, JavaScript `NaN`). -/
theorem geometry_defaulting (c : FilmstripConstants)
    (cfg : InterfaceConfig) (clientHeight clientWidth : ℚ)
    (hf : cfg.filmStripMaxHeight = none)
    (hl : cfg.localThumbnailRatio = none) :
    calculateThumbnailSizeForHorizontalView cfg
        = calculateThumbnailSizeForHorizontalView cfg 0
      ∧ calculateThumbnailSizeForHorizontalView cfg clientHeight
        = calculateThumbnailSizeForHorizontalView
          { cfg with filmStripMaxHeight := some 120 } clientHeight
      ∧ calculateThumbnailSizeForVerticalView c cfg clientWidth
        = calculateThumbnailSizeForVerticalView c
          { cfg with filmStripMaxHeight := some 120 } clientWidth
      ∧ (calculateThumbnailSizeForHorizontalView cfg clientHeight).localThumb.width
        = none
      ∧ (calculateThumbnailSizeForVerticalView c cfg clientWidth).localThumb.height
        = none := by
  have h120 : jsOr (some 120) 120 = 120 := by norm_num [jsOr]
  refine ⟨rfl, ?_, ?_, ?_, ?_⟩ <;>
    simp [calculateThumbnailSizeForHorizontalView,
      calculateThumbnailSizeForVerticalView, jsOr, hf, hl, h120]

/-- Witness for amended C8 with both fields unset and client sizes 100. -/
theorem geometry_defaulting_witness :
    cfgUnset.filmStripMaxHeight = none
      ∧ cfgUnset.localThumbnailRatio = none
      ∧ (calculateThumbnailSizeForHorizontalView cfgUnset 100).localThumb.width
        = none :=
  ⟨rfl, rfl,
    (geometry_defaulting cstExample cfgUnset 100 100 rfl rfl).2.2.2.1⟩

/-- C10: a configured `FILM_STRIP_MAX_HEIGHT` of `0` is indistinguishable
from an unset one in `calculateThumbnailSizeForHorizontalView`,
`calculateThumbnailSizeForVerticalView` and
`getVerticalFilmstripVisibleAreaWidth`, and all three substitute `120`
for the cap in that case, so a zero cap can never be expressed. -/
theorem filmStripMaxHeight_zero_is_unset (c : FilmstripConstants)
    (cfg : InterfaceConfig) (clientHeight clientWidth innerWidth : ℚ) :
    calculateThumbnailSizeForHorizontalView
        { cfg with filmStripMaxHeight := some 0 } clientHeight
      = calculateThumbnailSizeForHorizontalView
        { cfg with filmStripMaxHeight := none } clientHeight
    ∧ calculateThumbnailSizeForVerticalView c
        { cfg with filmStripMaxHeight := some 0 } clientWidth
      = calculateThumbnailSizeForVerticalView c
        { cfg with filmStripMaxHeight := none } clientWidth
    ∧ getVerticalFilmstripVisibleAreaWidth
        { cfg with filmStripMaxHeight := some 0 } innerWidth
      = getVerticalFilmstripVisibleAreaWidth
        { cfg with filmStripMaxHeight := none } innerWidth
    ∧ calculateThumbnailSizeForHorizontalView
        { cfg with filmStripMaxHeight := some 0 } clientHeight
      = calculateThumbnailSizeForHorizontalView
        { cfg with filmStripMaxHeight := some 120 } clientHeight
    ∧ calculateThumbnailSizeForVerticalView c
        { cfg with filmStripMaxHeight := some 0 } clientWidth
      = calculateThumbnailSizeForVerticalView c
        { cfg with filmStripMaxHeight := some 120 } clientWidth
    ∧ getVerticalFilmstripVisibleAreaWidth
        { cfg with filmStripMaxHeight := some 0 } innerWidth
      = getVerticalFilmstripVisibleAreaWidth
        { cfg with filmStripMaxHeight := some 120 } innerWidth := by
  have h0 : jsOr (some 0) 120 = 120 := by norm_num [jsOr]
  have h120 : jsOr (some 120) 120 = 120 := by norm_num [jsOr]
  have hn : jsOr none 120 = 120 := rfl
  refine ⟨?_, ?_, ?_, ?_, ?_, ?_⟩ <;>
    simp [calculateThumbnailSizeForHorizontalView,
      calculateThumbnailSizeForVerticalView,
      getVerticalFilmstripVisibleAreaWidth, h0, h120, hn]
